import Mathlib

/-!
# Backup control panel (`src/script.js`): embedding and verified properties

The panel is a single browser script driving a REST provider.  The embedding keeps
the script's globals (`config`, `appState`), the persistent storage record and the
form fields it reads and writes as one explicit `State`; every function of the
script becomes a function from a state (and the answers of the environment: the
outcome of each `fetch`, the answer to `confirm`) to a new state and the list of
observable effects it produced, in program order.

Conventions of the embedding

* JavaScript strings are `String`; a string is falsy exactly when it is `""`.
* A timestamp is the time value (milliseconds since the epoch, an integer) that
  `new Date(...)` gives the provider's ISO text.
* Numbers produced by `formatDuration` are exact rationals.  On differences that
  are whole seconds every intermediate value the script computes is either an
  integer or lies at least `1/60` away from a rounding boundary, so exact
  arithmetic and IEEE doubles give the same text.
* An `async` function runs to completion as one step; the outcome of each
  `await fetch(...)` is an argument.  What the results about calls rest on does not
  depend on this: no step ever makes a complete configuration incomplete
  (`step_keeps_complete`), so a guard passed before an `await` still holds after it.
* The values of the stored record and of the provider's JSON have the types the
  script expects (strings, lists of records); a property that is absent is `none`.
-/

namespace BackupPanel

/-! ## Data model -/

/-- The global `config` object (script.js:2-7). -/
structure Config where
  githubToken : String
  repoOwner : String
  repoName : String
  apiBase : String
deriving DecidableEq, Repr

/-- Initial value of `config` (script.js:2-7). -/
def defaultConfig : Config :=
  { githubToken := "", repoOwner := "Artur2000LP", repoName := "backup-supabase",
    apiBase := "https://api.github.com" }

/-- Parsed value of the storage item `supabaseBackupConfig`: the keys it carries. -/
structure StoredConfig where
  githubToken : Option String
  repoOwner : Option String
  repoName : Option String
  apiBase : Option String
deriving DecidableEq, Repr

/-- An entry of `response.data.workflows`; `id` is the provider's integer identifier, in
the range where a number prints as its decimal digits. -/
structure Workflow where
  id : Nat
  name : String
deriving DecidableEq, Repr

/-- An entry of `response.data.workflow_runs`; `conclusion` is `none` for `null`. -/
structure Run where
  name : String
  created_at : Int
  updated_at : Int
  status : String
  conclusion : Option String
  html_url : String
deriving DecidableEq, Repr

/-- An entry of `appState.backups` as `loadAvailableBackupDates` reads it. -/
structure BackupEntry where
  status : String
  date : String
deriving DecidableEq, Repr

/-- The global `appState` object (script.js:10-15); `workflows` is `none` when the
script assigned `undefined` to it. -/
structure AppState where
  connected : Bool
  loading : Bool
  backups : List BackupEntry
  workflows : Option (List Workflow)
deriving DecidableEq, Repr

/-- Initial value of `appState` (script.js:10-15). -/
def initialAppState : AppState :=
  { connected := false, loading := false, backups := [], workflows := some [] }

/-- The form controls the script reads and writes through `document.getElementById`. -/
structure Form where
  githubToken : String
  repoOwner : String
  repoName : String
  targetDbUrl : String
  backupDate : String
  restoreRoles : Bool
  restoreSchema : Bool
  restoreData : Bool
deriving DecidableEq, Repr

/-- Everything the script can read back later: globals, storage item, form. -/
structure State where
  config : Config
  appState : AppState
  storage : Option StoredConfig
  form : Form
deriving DecidableEq, Repr

/-- The `inputs` object of a restore dispatch (script.js:216-222). -/
structure RestoreInputs where
  target_db_url : String
  backup_date : String
  restore_roles : String
  restore_schema : String
  restore_data : String
deriving DecidableEq, Repr

/-- The `data` argument of `githubAPI` for a dispatch: `ref` and optional `inputs`. -/
structure DispatchBody where
  ref : String
  inputs : Option RestoreInputs
deriving DecidableEq, Repr

/-- The object `getStatusIcon` returns. -/
structure StatusIcon where
  icon : String
  text : String
deriving DecidableEq, Repr

/-- One rendered entry of the history list (script.js:288-319), without markup. -/
structure HistoryRow where
  isBackup : Bool
  date : Int
  status : StatusIcon
  duration : String
  html_url : String
  restoreButton : Bool
deriving DecidableEq, Repr

/-- Content of the `lastBackup` element, up to the locale rendering of the date. -/
inductive LastBackupText where
  | lastAt (created_at : Int)
  | noDisponible
deriving DecidableEq, Repr

/-- Functions handed to `setTimeout` / `setInterval`. -/
inductive Callback where
  | refreshHistory
  | updateStatus
deriving DecidableEq, Repr

/-- Observable effects, in program order. -/
inductive Event where
  | showNotification (message type : String)
  | logMessage (message type : String)
  | statusLine (status message : String)
  | githubAPI (config : Config) (method endpoint : String) (data : Option DispatchBody)
  | confirm (message : String)
  | setTimeout (callback : Callback) (delay : Nat)
  | setInterval (callback : Callback) (delay : Nat)
  | displayBackupHistory (rows : List HistoryRow)
  | lastBackup (text : LastBackupText)
  | closeModal (modalId : String)
  | uncaughtTypeError
deriving DecidableEq, Repr

/-- Parsed JSON body of a provider response: the properties the script reads. -/
structure Payload where
  workflows : Option (List Workflow)
  workflow_runs : Option (List Run)
  message : Option String
deriving DecidableEq, Repr

/-- What `await fetch(url, options)` followed by `await response.json()` can do
(script.js:113-118): `fetch` rejects (`networkError`); or it resolves with a status
and `response.json()` rejects because the body is not JSON (`invalidBody`), as for an
empty body; or the body parses (`json`). -/
inductive FetchOutcome where
  | networkError (message : String)
  | invalidBody (status : Nat) (message : String)
  | json (status : Nat) (data : Payload)
deriving DecidableEq, Repr

/-- The object `githubAPI` returns (script.js:114-118). -/
structure ApiResponse where
  ok : Bool
  status : Nat
  data : Payload
deriving DecidableEq, Repr

/-! ## Pure helpers of the script -/

/-- Code points `String.prototype.trim` strips: ECMAScript WhiteSpace and
LineTerminator. -/
def isJsWhitespace (c : Char) : Bool :=
  c.toNat ∈ [0x09, 0x0A, 0x0B, 0x0C, 0x0D, 0x20, 0xA0, 0x1680, 0x2028, 0x2029, 0x202F,
    0x205F, 0x3000, 0xFEFF] || (0x2000 ≤ c.toNat && c.toNat ≤ 0x200A)

/-- Model of `String.prototype.trim`: strip whitespace from both ends. -/
def jsTrim (s : String) : String :=
  String.mk ((s.data.dropWhile isJsWhitespace).reverse.dropWhile isJsWhitespace).reverse

/-- A string is blank when every code point is stripped by `trim`. -/
def isBlank (s : String) : Bool :=
  s.data.all isJsWhitespace

/-- Model of `String.prototype.includes`. -/
def jsIncludes (s sub : String) : Bool :=
  decide (sub.data <:+: s.data)

/-- Model of `Boolean.prototype.toString`. -/
def boolToString (b : Bool) : String :=
  if b then "true" else "false"

/-- Model of `Math.round`: nearest integer, halves towards positive infinity. -/
def mathRound (x : ℚ) : ℤ :=
  ⌊x + 1 / 2⌋

/-- Model of the `%` operator on numbers: remainder of truncated division. -/
def jsRem (x y : ℚ) : ℚ :=
  x - y * (if 0 ≤ x / y then (⌊x / y⌋ : ℤ) else (⌈x / y⌉ : ℤ))

/-- Function `getStatusIcon` (script.js:322-334). -/
def getStatusIcon (status : String) (conclusion : Option String) : StatusIcon :=
  if status = "in_progress" then
    { icon := "<i class=\"fas fa-spinner fa-spin text-warning\"></i>", text := "En progreso" }
  else if conclusion = some "success" then
    { icon := "<i class=\"fas fa-check-circle text-success\"></i>", text := "Completado" }
  else if conclusion = some "failure" then
    { icon := "<i class=\"fas fa-times-circle text-danger\"></i>", text := "Fallido" }
  else if conclusion = some "cancelled" then
    { icon := "<i class=\"fas fa-stop-circle text-secondary\"></i>", text := "Cancelado" }
  else
    { icon := "<i class=\"fas fa-clock text-secondary\"></i>", text := "Pendiente" }

/-- Function `formatDuration` (script.js:336-346) on the time values of its two dates. -/
def formatDuration (start stop : Int) : String :=
  let duration : ℚ := ((stop - start : Int) : ℚ) / 1000
  if duration < 60 then
    toString (mathRound duration) ++ "s"
  else
    toString (mathRound (duration / 60)) ++ "m " ++ toString (mathRound (jsRem duration 60)) ++ "s"

/-- The predicate of the `filter` in `refreshHistory` (script.js:258-263). -/
def isRecognizedRun (run : Run) : Bool :=
  run.name = "respaldo-supabase" || run.name = "supabase-backup" ||
    run.name = "restaurar-supabase" || run.name = "supabase-restore"

/-- The predicate of the `find` in `triggerBackup` (script.js:144-146). -/
def isBackupWorkflow (w : Workflow) : Bool :=
  w.name = "respaldo-supabase" || w.name = "supabase-backup"

/-- The predicate of the `find` in `executeRestore` (script.js:199-201). -/
def isRestoreWorkflow (w : Workflow) : Bool :=
  w.name = "restaurar-supabase" || w.name = "supabase-restore"

/-- The predicate of the `find` in `updateLastBackupInfo` (script.js:349-352). -/
def isSuccessfulBackup (run : Run) : Bool :=
  (run.name = "respaldo-supabase" || run.name = "supabase-backup") &&
    run.conclusion = some "success"

/-- One entry of the `runs.map` in `displayBackupHistory` (script.js:288-319). -/
def historyRow (run : Run) : HistoryRow :=
  let isBackup := jsIncludes run.name "backup" || jsIncludes run.name "respaldo"
  { isBackup := isBackup
    date := run.created_at
    status := getStatusIcon run.status run.conclusion
    duration := formatDuration run.created_at run.updated_at
    html_url := run.html_url
    restoreButton := run.conclusion = some "success" && isBackup }

/-- Function `displayBackupHistory` (script.js:274-320): the rows written to `backupList`; for
an empty list the script writes its placeholder instead. -/
def displayBackupHistory (runs : List Run) : List Event :=
  [Event.displayBackupHistory (runs.map historyRow)]

/-- The run `updateLastBackupInfo` picks (script.js:349-352). -/
def lastSuccessfulBackup (runs : List Run) : Option Run :=
  runs.find? isSuccessfulBackup

/-- Function `updateLastBackupInfo` (script.js:348-361): the content given to `lastBackup`. -/
def updateLastBackupInfo (runs : List Run) : LastBackupText :=
  match lastSuccessfulBackup runs with
  | some lastBackup => LastBackupText.lastAt lastBackup.created_at
  | none => LastBackupText.noDisponible

/-- Text of a `LastBackupText` (script.js:357, 359) for given locale renderings of
the date and of the time of day. -/
def LastBackupText.render (toLocaleDateString toLocaleTimeString : Int → String) :
    LastBackupText → String
  | LastBackupText.lastAt t =>
      "Último respaldo: " ++ toLocaleDateString t ++ " " ++ toLocaleTimeString t
  | LastBackupText.noDisponible => "Último respaldo: No disponible"

/-! ## The script's functions -/

/-- Function `updateStatus` (script.js:81-94): write the status line, then set
`appState.connected` for `connected` / `disconnected`.  Called without arguments (as by
the interval timer) it takes the defaults of its parameters. -/
def updateStatus (s : State) (status : String := "disconnected")
    (message : String := "Desconectado") : State × List Event :=
  let s1 : State :=
    if status = "connected" then
      { s with appState := { s.appState with connected := true } }
    else if status = "disconnected" then
      { s with appState := { s.appState with connected := false } }
    else s
  (s1, [Event.statusLine status message])

/-- Function `githubAPI` (script.js:97-123): the call it records, what it logs, and what it
returns (`Except.error` carries `error.message` of the rethrown error).  `ok` is the
`ok` flag of the fetch response: the status lies in 200..299. -/
def githubAPI (config : Config) (method endpoint : String) (data : Option DispatchBody)
    (outcome : FetchOutcome) : List Event × Except String ApiResponse :=
  let call := Event.githubAPI config method endpoint data
  match outcome with
  | FetchOutcome.networkError message =>
      ([call, Event.logMessage ("Error en API: " ++ message) "error"], Except.error message)
  | FetchOutcome.invalidBody _ message =>
      ([call, Event.logMessage ("Error en API: " ++ message) "error"], Except.error message)
  | FetchOutcome.json status data =>
      ([call], Except.ok { ok := decide (200 ≤ status ∧ status ≤ 299), status := status,
                           data := data })

/-- The request `githubAPI` hands to `fetch` (script.js:98-110): URL, method,
`Authorization` header, and whether a body is sent. -/
def fetchRequest (config : Config) (method endpoint : String) (data : Option DispatchBody) :
    String × String × String × Option DispatchBody :=
  (config.apiBase ++ endpoint, method, "token " ++ config.githubToken, data)

/-- Message of the `TypeError` raised by reading a property of `undefined` (the wording
is the engine's, with the property name between single quotes). -/
def typeErrorMessage (property : String) : String :=
  "Cannot read properties of undefined (reading \x27" ++ property ++ "\x27)"

/-- Function `loadWorkflows` (script.js:126-136). -/
def loadWorkflows (s : State) (outcome : FetchOutcome) : State × List Event :=
  let (events, result) := githubAPI s.config "GET"
    ("/repos/" ++ s.config.repoOwner ++ "/" ++ s.config.repoName ++ "/actions/workflows") none
    outcome
  match result with
  | Except.ok response =>
      if response.ok then
        ({ s with appState := { s.appState with workflows := response.data.workflows } },
          events ++ [Event.logMessage "Workflows cargados correctamente" "success"])
      else (s, events)
  | Except.error message =>
      (s, events ++ [Event.logMessage ("Error al cargar workflows: " ++ message) "error"])

/-- Function `refreshHistory` (script.js:246-272). -/
def refreshHistory (s : State) (outcome : FetchOutcome) : State × List Event :=
  if !s.appState.connected then (s, [])
  else
    let start := [Event.logMessage "Actualizando historial de respaldos..." "info"]
    let (events, result) := githubAPI s.config "GET"
      ("/repos/" ++ s.config.repoOwner ++ "/" ++ s.config.repoName ++
        "/actions/runs?per_page=20") none outcome
    match result with
    | Except.ok response =>
        if response.ok then
          match response.data.workflow_runs with
          | some workflow_runs =>
              let runs := workflow_runs.filter isRecognizedRun
              (s, start ++ events ++ displayBackupHistory runs ++
                [Event.lastBackup (updateLastBackupInfo runs),
                 Event.logMessage "Historial actualizado correctamente" "success"])
          | none =>
              (s, start ++ events ++
                [Event.logMessage ("Error al actualizar historial: " ++ typeErrorMessage "filter")
                  "error"])
        else (s, start ++ events)
    | Except.error message =>
        (s, start ++ events ++
          [Event.logMessage ("Error al actualizar historial: " ++ message) "error"])

/-- Function `testConnection` (script.js:56-79); the three outcomes answer, in order, the probe,
the workflow listing and the run listing. -/
def testConnection (s : State) (probe workflows runs : FetchOutcome) : State × List Event :=
  if s.config.githubToken = "" || s.config.repoOwner = "" || s.config.repoName = "" then
    updateStatus s "disconnected" "Configuración incompleta"
  else
    let (s1, e1) := updateStatus s "connecting" "Conectando..."
    let (e2, result) := githubAPI s1.config "GET"
      ("/repos/" ++ s1.config.repoOwner ++ "/" ++ s1.config.repoName) none probe
    let failure (message : String) : State × List Event :=
      let s2 : State := { s1 with appState := { s1.appState with connected := false } }
      let (s3, e3) := updateStatus s2 "disconnected" ("Error de conexión: " ++ message)
      (s3, e1 ++ e2 ++ e3 ++ [Event.logMessage ("Error al conectar: " ++ message) "error"])
    match result with
    | Except.ok response =>
        if response.ok then
          let s2 : State := { s1 with appState := { s1.appState with connected := true } }
          let r3 := updateStatus s2 "connected" "Conectado"
          let r4 := loadWorkflows r3.1 workflows
          let r5 := refreshHistory r4.1 runs
          (r5.1, e1 ++ e2 ++ r3.2 ++ r4.2 ++ r5.2)
        else failure "No se pudo conectar al repositorio"
    | Except.error message => failure message

/-- Function `triggerBackup` (script.js:138-175).  It never writes to the state. -/
def triggerBackup (s : State) (outcome : FetchOutcome) : State × List Event :=
  if !s.appState.connected then
    (s, [Event.showNotification "No hay conexión con GitHub" "error"])
  else
    match s.appState.workflows with
    | none => (s, [Event.uncaughtTypeError])
    | some workflows =>
      match workflows.find? isBackupWorkflow with
      | none => (s, [Event.showNotification "No se encontró el workflow de respaldo" "error"])
      | some backupWorkflow =>
        let start := [Event.showNotification "Iniciando respaldo..." "info",
                      Event.logMessage "Disparando workflow de respaldo manual" "info"]
        let (events, result) := githubAPI s.config "POST"
          ("/repos/" ++ s.config.repoOwner ++ "/" ++ s.config.repoName ++
            "/actions/workflows/" ++ toString backupWorkflow.id ++ "/dispatches")
          (some { ref := "main", inputs := none }) outcome
        let failure (message : String) : State × List Event :=
          (s, start ++ events ++
            [Event.showNotification ("Error al iniciar respaldo: " ++ message) "error",
             Event.logMessage ("Error al disparar workflow: " ++ message) "error"])
        match result with
        | Except.ok response =>
            if response.ok then
              (s, start ++ events ++
                [Event.showNotification "Respaldo iniciado correctamente" "success",
                 Event.logMessage "Workflow de respaldo disparado exitosamente" "success",
                 Event.setTimeout Callback.refreshHistory 3000])
            else
              failure ("Error " ++ toString response.status ++ ": " ++
                response.data.message.getD "undefined")
        | Except.error message => failure message

/-- Text of the confirmation dialog of `executeRestore` (script.js:195). -/
def restoreWarning : String :=
  "⚠️ ADVERTENCIA: Esta operación modificará la base de datos destino. ¿Estás seguro?"

/-- Function `executeRestore` (script.js:177-243); `confirmed` is the answer to `confirm`. -/
def executeRestore (s : State) (confirmed : Bool) (outcome : FetchOutcome) :
    State × List Event :=
  if !s.appState.connected then
    (s, [Event.showNotification "No hay conexión con GitHub" "error"])
  else
    let targetDbUrl := jsTrim s.form.targetDbUrl
    let backupDate := s.form.backupDate
    let restoreRoles := s.form.restoreRoles
    let restoreSchema := s.form.restoreSchema
    let restoreData := s.form.restoreData
    if targetDbUrl = "" then
      (s, [Event.showNotification "Por favor ingresa la URL de la base de datos destino"
            "error"])
    else if !confirmed then
      (s, [Event.confirm restoreWarning])
    else
      match s.appState.workflows with
      | none => (s, [Event.confirm restoreWarning, Event.uncaughtTypeError])
      | some workflows =>
        match workflows.find? isRestoreWorkflow with
        | none =>
            (s, [Event.confirm restoreWarning,
                 Event.showNotification "No se encontró el workflow de restauración" "error"])
        | some restoreWorkflow =>
          let start := [Event.confirm restoreWarning,
                        Event.showNotification "Iniciando restauración..." "info",
                        Event.logMessage "Disparando workflow de restauración" "info"]
          let (events, result) := githubAPI s.config "POST"
            ("/repos/" ++ s.config.repoOwner ++ "/" ++ s.config.repoName ++
              "/actions/workflows/" ++ toString restoreWorkflow.id ++ "/dispatches")
            (some { ref := "main",
                    inputs := some { target_db_url := targetDbUrl,
                                     backup_date := backupDate,
                                     restore_roles := boolToString restoreRoles,
                                     restore_schema := boolToString restoreSchema,
                                     restore_data := boolToString restoreData } }) outcome
          let failure (message : String) : State × List Event :=
            (s, start ++ events ++
              [Event.showNotification ("Error al iniciar restauración: " ++ message) "error",
               Event.logMessage ("Error al disparar workflow de restauración: " ++ message)
                 "error"])
          match result with
          | Except.ok response =>
              if response.ok then
                ({ s with form := { s.form with targetDbUrl := "", backupDate := "latest" } },
                  start ++ events ++
                  [Event.showNotification "Restauración iniciada correctamente" "success",
                   Event.logMessage ("Restauración iniciada: " ++ backupDate ++
                     " -> Base de datos destino") "success",
                   Event.closeModal "restoreModal",
                   Event.setTimeout Callback.refreshHistory 3000])
              else
                failure ("Error " ++ toString response.status ++ ": " ++
                  response.data.message.getD "undefined")
          | Except.error message => failure message

/-- The shallow merge of `loadConfig` (script.js:31): stored keys override. -/
def mergeStored (config : Config) (saved : StoredConfig) : Config :=
  { githubToken := saved.githubToken.getD config.githubToken
    repoOwner := saved.repoOwner.getD config.repoOwner
    repoName := saved.repoName.getD config.repoName
    apiBase := saved.apiBase.getD config.apiBase }

/-- Function `loadConfig` (script.js:28-36). -/
def loadConfig (s : State) : State :=
  match s.storage with
  | some saved =>
      let config := mergeStored s.config saved
      { s with config := config,
               form := { s.form with githubToken := config.githubToken,
                                     repoOwner := config.repoOwner,
                                     repoName := config.repoName } }
  | none => s

/-- The value `JSON.stringify(config)` stores (script.js:49): all four keys. -/
def stringifyConfig (config : Config) : StoredConfig :=
  { githubToken := some config.githubToken, repoOwner := some config.repoOwner,
    repoName := some config.repoName, apiBase := some config.apiBase }

/-- Function `saveConfig` (script.js:38-53); the outcomes are those of the `testConnection` it
starts. -/
def saveConfig (s : State) (probe workflows runs : FetchOutcome) : State × List Event :=
  let token := jsTrim s.form.githubToken
  let owner := jsTrim s.form.repoOwner
  let repo := jsTrim s.form.repoName
  if token = "" || owner = "" || repo = "" then
    (s, [Event.showNotification "Por favor completa todos los campos" "error"])
  else
    let config : Config :=
      { s.config with githubToken := token, repoOwner := owner, repoName := repo }
    let s1 : State := { s with config := config, storage := some (stringifyConfig config) }
    let r := testConnection s1 probe workflows runs
    (r.1, Event.showNotification "Configuración guardada correctamente" "success" :: r.2)

/-- Function `initializeApp` (script.js:516-534): its log entry (the listeners it installs are
not modelled). -/
def initializeApp : List Event :=
  [Event.logMessage "Panel de control inicializado" "success"]

/-- The `DOMContentLoaded` handler (script.js:18-25) run on the script's initial globals,
for a given storage item and initial form. -/
def startup (storage : Option StoredConfig) (form : Form) : State × List Event :=
  let s0 : State :=
    { config := defaultConfig, appState := initialAppState, storage := storage, form := form }
  let s1 := loadConfig s0
  let r := updateStatus s1
  (r.1, initializeApp ++ r.2 ++ [Event.setInterval Callback.updateStatus 30000])

/-! ## Observations on effect lists -/

/-- The `githubAPI` calls among a list of effects, in order. -/
def apiCalls (events : List Event) : List Event :=
  events.filter fun e => match e with
    | Event.githubAPI _ _ _ _ => true
    | _ => false

/-- The timers (`setTimeout`) set among a list of effects, in order. -/
def timeouts (events : List Event) : List Event :=
  events.filter fun e => match e with
    | Event.setTimeout _ _ => true
    | _ => false

/-- The confirmation dialogs shown among a list of effects. -/
def confirmations (events : List Event) : List Event :=
  events.filter fun e => match e with
    | Event.confirm _ => true
    | _ => false

/-- The status-line writes (`updateStatus`) among a list of effects. -/
def statusWrites (events : List Event) : List Event :=
  events.filter fun e => match e with
    | Event.statusLine _ _ => true
    | _ => false

/-- The five labels of a run's state, named as in the specification. -/
inductive StatusLabel where
  | in_progress
  | success
  | failure
  | cancelled
  | pending
deriving DecidableEq, Repr

/-- The object `getStatusIcon` returns for each label (script.js:324-332). -/
def StatusLabel.icon : StatusLabel → StatusIcon
  | StatusLabel.in_progress =>
      { icon := "<i class=\"fas fa-spinner fa-spin text-warning\"></i>", text := "En progreso" }
  | StatusLabel.success =>
      { icon := "<i class=\"fas fa-check-circle text-success\"></i>", text := "Completado" }
  | StatusLabel.failure =>
      { icon := "<i class=\"fas fa-times-circle text-danger\"></i>", text := "Fallido" }
  | StatusLabel.cancelled =>
      { icon := "<i class=\"fas fa-stop-circle text-secondary\"></i>", text := "Cancelado" }
  | StatusLabel.pending =>
      { icon := "<i class=\"fas fa-clock text-secondary\"></i>", text := "Pendiente" }

/-- The configurations under which the `githubAPI` calls of an effect list were made. -/
def apiConfigs (events : List Event) : List Config :=
  events.filterMap fun e => match e with
    | Event.githubAPI config _ _ _ => some config
    | _ => none

/-- The test of `testConnection` (script.js:57), negated: all three fields are
non-empty. -/
def Config.isComplete (config : Config) : Bool :=
  !(config.githubToken = "" || config.repoOwner = "" || config.repoName = "")

/-! ## Sessions: start-up followed by any sequence of entry points -/

/-- One activation of the script after start-up, with what the environment supplies:
the operator editing the form, a call of one of the script's functions, or a firing
of the interval timer (`tick`, which calls `updateStatus` without arguments). -/
inductive Step where
  | editForm (form : Form)
  | saveConfig (probe workflows runs : FetchOutcome)
  | testConnection (probe workflows runs : FetchOutcome)
  | tick
  | triggerBackup (outcome : FetchOutcome)
  | executeRestore (confirmed : Bool) (outcome : FetchOutcome)
  | refreshHistory (outcome : FetchOutcome)
  | loadWorkflows (outcome : FetchOutcome)
deriving DecidableEq, Repr

/-- Whether the step is a call of `loadWorkflows` on its own (not from
`testConnection`). -/
def Step.isLoadWorkflows : Step → Bool
  | Step.loadWorkflows _ => true
  | _ => false

/-- Effect of one step. -/
def step (s : State) : Step → State × List Event
  | Step.editForm form => ({ s with form := form }, [])
  | Step.saveConfig probe workflows runs => saveConfig s probe workflows runs
  | Step.testConnection probe workflows runs => testConnection s probe workflows runs
  | Step.tick => updateStatus s
  | Step.triggerBackup outcome => triggerBackup s outcome
  | Step.executeRestore confirmed outcome => executeRestore s confirmed outcome
  | Step.refreshHistory outcome => refreshHistory s outcome
  | Step.loadWorkflows outcome => loadWorkflows s outcome

/-- Effect of a sequence of steps. -/
def run (s : State) : List Step → State × List Event
  | [] => (s, [])
  | st :: rest =>
      let r1 := step s st
      let r2 := run r1.1 rest
      (r2.1, r1.2 ++ r2.2)

/-- A session: the start-up handler, then the steps. -/
def session (storage : Option StoredConfig) (form : Form) (steps : List Step) :
    State × List Event :=
  let r0 := startup storage form
  let r1 := run r0.1 steps
  (r1.1, r0.2 ++ r1.2)

/-- A form with every field empty and every box unchecked. -/
def emptyForm : Form :=
  { githubToken := "", repoOwner := "", repoName := "", targetDbUrl := "", backupDate := "",
    restoreRoles := false, restoreSchema := false, restoreData := false }

/-! ## Sample values -/

/-- A complete configuration. -/
def sampleConfig : Config :=
  { githubToken := "ghp_sample", repoOwner := "Artur2000LP", repoName := "backup-supabase",
    apiBase := "https://api.github.com" }

/-- A catalog with an unrelated workflow, the backup workflow (id 42) and the restore
workflow (id 43). -/
def sampleWorkflows : List Workflow :=
  [{ id := 41, name := "deploy" }, { id := 42, name := "supabase-backup" },
   { id := 43, name := "supabase-restore" }]

/-- A filled restore form. -/
def sampleForm : Form :=
  { githubToken := "ghp_sample", repoOwner := "Artur2000LP", repoName := "backup-supabase",
    targetDbUrl := " postgresql://db.example/postgres ", backupDate := "latest",
    restoreRoles := true, restoreSchema := false, restoreData := true }

/-- A connected state with the sample catalog. -/
def sampleState : State :=
  { config := sampleConfig
    appState := { connected := true, loading := false, backups := [],
                  workflows := some sampleWorkflows }
    storage := some (stringifyConfig sampleConfig)
    form := sampleForm }

/-- A run history: a failed backup, an unrelated run, a restore, a successful backup. -/
def sampleRuns : List Run :=
  [{ name := "supabase-backup", created_at := 400000, updated_at := 445000,
     status := "completed", conclusion := some "failure", html_url := "https://x/4" },
   { name := "deploy", created_at := 300000, updated_at := 301000,
     status := "completed", conclusion := some "success", html_url := "https://x/3" },
   { name := "restaurar-supabase", created_at := 200000, updated_at := 202000,
     status := "queued", conclusion := none, html_url := "https://x/2" },
   { name := "respaldo-supabase", created_at := 100000, updated_at := 190000,
     status := "completed", conclusion := some "success", html_url := "https://x/1" }]

/-- A response body carrying the sample runs. -/
def samplePayload : Payload :=
  { workflows := none, workflow_runs := some sampleRuns, message := none }

/-- The sample state with a whitespace-only restore target. -/
def blankTargetState : State :=
  { sampleState with form := { sampleForm with targetDbUrl := " \t\n" } }

/-- The sample state with a whitespace-only owner field. -/
def blankOwnerState : State :=
  { sampleState with form := { sampleForm with repoOwner := "  " } }

/-- The invariant of the session: a connected state has a complete configuration. -/
def ConnectedComplete (s : State) : Prop :=
  s.appState.connected = true → s.config.isComplete = true

/-- An operator session: fill the form, save, trigger a backup, wait for a tick, ask for
a refresh. -/
def sampleSteps : List Step :=
  [Step.editForm sampleForm,
   Step.saveConfig (FetchOutcome.json 200 { workflows := none, workflow_runs := none,
                                             message := none })
     (FetchOutcome.json 200 { workflows := some sampleWorkflows, workflow_runs := none,
                              message := none })
     (FetchOutcome.json 200 samplePayload),
   Step.triggerBackup (FetchOutcome.invalidBody 204 "Unexpected end of JSON input"),
   Step.tick,
   Step.refreshHistory (FetchOutcome.json 200 samplePayload)]

/-! ## Readers of the run history -/

/-- Function `loadAvailableBackupDates` (script.js:378-391): the values of the options it
writes to the `backupDate` select: `latest`, then, when connected, the `date` of every
entry of `appState.backups` whose `status` is `success`. -/
def loadAvailableBackupDates (s : State) : List String :=
  "latest" ::
    (if s.appState.connected then
      (s.appState.backups.filter fun b => decide (b.status = "success")).map fun b => b.date
    else [])

/-- Content of the `backupList` element after a list of effects: the rows of the last
`displayBackupHistory` write (each write assigns the whole content), `none` when there
was no write. -/
def renderedHistory (events : List Event) : Option (List HistoryRow) :=
  events.foldl (fun shown e => match e with
    | Event.displayBackupHistory rows => some rows
    | _ => shown) none

/-- Content of the `lastBackup` element after a list of effects: the last text written,
`none` when there was no write. -/
def renderedLastBackup (events : List Event) : Option LastBackupText :=
  events.foldl (fun shown e => match e with
    | Event.lastBackup text => some text
    | _ => shown) none

/-- Effects of an earlier refresh that rendered one row. -/
def staleEvents : List Event :=
  [Event.displayBackupHistory
    [{ isBackup := true, date := 5, status := getStatusIcon "completed" (some "success"),
       duration := "7s", html_url := "https://x/0", restoreButton := true }],
   Event.lastBackup (LastBackupText.lastAt 5)]

/-- The sample state with a catalog holding both backup aliases, `respaldo-supabase`
(id 5) before `supabase-backup` (id 6). -/
def twoAliasState : State :=
  { sampleState with
    appState := { sampleState.appState with
      workflows := some [{ id := 4, name := "deploy" }, { id := 5, name := "respaldo-supabase" },
                         { id := 6, name := "supabase-backup" }] } }

/-- The sample state with a catalog whose only workflow is named `Backup-Supabase`. -/
def wrongCaseState : State :=
  { sampleState with
    appState := { sampleState.appState with
      workflows := some [{ id := 7, name := "Backup-Supabase" }] } }

/-- The `githubAPI` calls of a sequence of steps, in order, each as the step that made
it and the configuration it was made under. -/
def runCalls (s : State) : List Step → List (Step × Config)
  | [] => []
  | st :: rest =>
      (apiConfigs (step s st).2).map (fun c => (st, c)) ++ runCalls (step s st).1 rest

/-- The `githubAPI` calls of the steps of a session, each with the step that made it. -/
def sessionCalls (storage : Option StoredConfig) (form : Form) (steps : List Step) :
    List (Step × Config) :=
  runCalls (startup storage form).1 steps

/-- The sample session preceded by a `loadWorkflows` step taken on its own. -/
def mixedSteps : List Step :=
  Step.loadWorkflows (FetchOutcome.networkError "Failed to fetch") :: sampleSteps

/-! ## Rounding and duration text -/

theorem mathRound_intCast (n : ℤ) : mathRound (n : ℚ) = n := by
  unfold mathRound
  rw [Int.floor_eq_iff]
  constructor <;> norm_num

theorem mathRound_div_sixty (d : ℕ) : mathRound ((d : ℚ) / 60) = ((d + 30) / 60 : ℕ) := by
  unfold mathRound
  have h : (d : ℚ) / 60 + 1 / 2 = ((d + 30 : ℕ) : ℚ) / ((60 : ℕ) : ℚ) := by
    push_cast; ring
  rw [h, Rat.floor_natCast_div_natCast]
  norm_cast

theorem jsRem_sixty (d : ℕ) : jsRem (d : ℚ) 60 = ((d % 60 : ℕ) : ℤ) := by
  unfold jsRem
  have h0 : (0 : ℚ) ≤ (d : ℚ) / 60 := by positivity
  rw [if_pos h0]
  have h : (d : ℚ) / 60 = ((d : ℕ) : ℚ) / ((60 : ℕ) : ℚ) := by push_cast; ring
  rw [h, Rat.floor_natCast_div_natCast]
  have h3 : ((d : ℤ) / ((60 : ℕ) : ℤ)) = ((d / 60 : ℕ) : ℤ) := by norm_cast
  rw [h3]
  have h2 : (d : ℚ) = 60 * ((d / 60 : ℕ) : ℚ) + ((d % 60 : ℕ) : ℚ) := by
    exact_mod_cast (Nat.div_add_mod d 60).symm
  simp only [Int.cast_natCast]
  linarith

/-- What `formatDuration` prints for a difference of `d` whole seconds: the minutes
are `d / 60` rounded to the nearest integer (halves up), not rounded down. -/
theorem formatDuration_whole_seconds (t0 : Int) (d : ℕ) :
    formatDuration t0 (t0 + 1000 * d) =
      if d < 60 then toString (d : ℤ) ++ "s"
      else toString (((d + 30) / 60 : ℕ) : ℤ) ++ "m " ++ toString ((d % 60 : ℕ) : ℤ) ++ "s" := by
  have hd : (((t0 + 1000 * (d : ℤ) - t0 : ℤ) : ℚ)) / 1000 = (d : ℚ) := by
    push_cast; ring
  unfold formatDuration
  simp only [hd]
  by_cases h : d < 60
  · have hq : (d : ℚ) < 60 := by exact_mod_cast h
    rw [if_pos hq, if_pos h]
    have := mathRound_intCast (d : ℤ)
    simp only [Int.cast_natCast] at this
    rw [this]
  · have hq : ¬ (d : ℚ) < 60 := by
      intro hlt; exact h (by exact_mod_cast hlt)
    rw [if_neg hq, if_neg h, mathRound_div_sixty, jsRem_sixty, mathRound_intCast]

/-- The failing case of C2, with the specification's 45-second example beside it: for
timestamps 90 seconds (90000 ms) apart `formatDuration` prints `2m 30s`, not `1m 30s`;
for timestamps 45 seconds apart it prints `45s`. -/
theorem formatDuration_ninety_seconds (t0 : Int) :
    formatDuration t0 (t0 + 90000) = "2m 30s" ∧
      formatDuration t0 (t0 + 90000) ≠ "1m 30s" ∧
      formatDuration t0 (t0 + 45000) = "45s" := by
  have h90 : (t0 + 90000 : Int) = t0 + 1000 * ((90 : ℕ) : ℤ) := by norm_num
  have h45 : (t0 + 45000 : Int) = t0 + 1000 * ((45 : ℕ) : ℤ) := by norm_num
  rw [h90, h45, formatDuration_whole_seconds, formatDuration_whole_seconds]
  decide

/-! ## Status labels -/

theorem StatusLabel.icon_injective : Function.Injective StatusLabel.icon := by
  intro a b h
  cases a <;> cases b <;> first | rfl | (exact absurd h (by decide))

/-- C7: `getStatusIcon` returns exactly one of the five labels: `in_progress` when the
status is `in_progress` whatever the conclusion, otherwise `success`, `failure`,
`cancelled` by the conclusion, and `pending` for every other pair; `(completed, success)`
gives `success` and `(queued, null)` as well as `(queued, "none")` give `pending`. -/
theorem getStatusIcon_label (status : String) (conclusion : Option String) :
    (∃! label : StatusLabel, getStatusIcon status conclusion = label.icon) ∧
      getStatusIcon status conclusion =
        (if status = "in_progress" then StatusLabel.in_progress
         else if conclusion = some "success" then StatusLabel.success
         else if conclusion = some "failure" then StatusLabel.failure
         else if conclusion = some "cancelled" then StatusLabel.cancelled
         else StatusLabel.pending).icon ∧
      getStatusIcon "in_progress" conclusion = StatusLabel.in_progress.icon ∧
      getStatusIcon "completed" (some "success") = StatusLabel.success.icon ∧
      getStatusIcon "queued" none = StatusLabel.pending.icon ∧
      getStatusIcon "queued" (some "none") = StatusLabel.pending.icon := by
  have key : getStatusIcon status conclusion =
      (if status = "in_progress" then StatusLabel.in_progress
       else if conclusion = some "success" then StatusLabel.success
       else if conclusion = some "failure" then StatusLabel.failure
       else if conclusion = some "cancelled" then StatusLabel.cancelled
       else StatusLabel.pending).icon := by
    unfold getStatusIcon
    split_ifs <;> rfl
  refine ⟨⟨_, key, ?_⟩, key, ?_, by decide, by decide, by decide⟩
  · intro l hl
    exact StatusLabel.icon_injective (hl.symm.trans key)
  · unfold getStatusIcon
    rw [if_pos rfl]
    rfl

/-! ## Name filters -/

theorem isRecognizedRun_iff (run : Run) :
    isRecognizedRun run = true ↔
      run.name ∈ ["respaldo-supabase", "supabase-backup", "restaurar-supabase",
        "supabase-restore"] := by
  simp [isRecognizedRun, or_assoc]

theorem isBackupWorkflow_iff (w : Workflow) :
    isBackupWorkflow w = true ↔ w.name = "respaldo-supabase" ∨ w.name = "supabase-backup" := by
  simp [isBackupWorkflow]

theorem isSuccessfulBackup_iff (run : Run) :
    isSuccessfulBackup run = true ↔
      (run.name = "respaldo-supabase" ∨ run.name = "supabase-backup") ∧
        run.conclusion = some "success" := by
  simp [isSuccessfulBackup]

/-- What `refreshHistory` does in a connected state on an ok response that carries a run
list: one GET, then the filtered list is rendered and summarised. -/
theorem refreshHistory_ok (s : State) (status : Nat) (data : Payload) (runs : List Run)
    (hc : s.appState.connected = true) (hok : 200 ≤ status ∧ status ≤ 299)
    (hruns : data.workflow_runs = some runs) :
    refreshHistory s (FetchOutcome.json status data) =
      (s, [Event.logMessage "Actualizando historial de respaldos..." "info",
           Event.githubAPI s.config "GET"
             ("/repos/" ++ s.config.repoOwner ++ "/" ++ s.config.repoName ++
               "/actions/runs?per_page=20") none,
           Event.displayBackupHistory ((runs.filter isRecognizedRun).map historyRow),
           Event.lastBackup (updateLastBackupInfo (runs.filter isRecognizedRun)),
           Event.logMessage "Historial actualizado correctamente" "success"]) := by
  simp [refreshHistory, githubAPI, displayBackupHistory, hc, hok, hruns]

/-- C3: in a connected state, for every run list of an ok response, the list
`refreshHistory` renders and summarises is exactly the sub-list of the records named
`respaldo-supabase`, `supabase-backup`, `restaurar-supabase` or `supabase-restore`:
every kept record has one of the four names, every record with one of them is kept, and
the kept records are in the order of the input. -/
theorem refreshHistory_keeps_recognized (s : State) (status : Nat) (data : Payload)
    (runs : List Run) (hc : s.appState.connected = true) (hok : 200 ≤ status ∧ status ≤ 299)
    (hruns : data.workflow_runs = some runs) :
    ∃ kept : List Run,
      Event.displayBackupHistory (kept.map historyRow) ∈
          (refreshHistory s (FetchOutcome.json status data)).2 ∧
        Event.lastBackup (updateLastBackupInfo kept) ∈
          (refreshHistory s (FetchOutcome.json status data)).2 ∧
        kept = runs.filter (fun run => decide (run.name ∈ ["respaldo-supabase",
          "supabase-backup", "restaurar-supabase", "supabase-restore"])) ∧
        (∀ run ∈ kept, run.name ∈ ["respaldo-supabase", "supabase-backup",
          "restaurar-supabase", "supabase-restore"]) ∧
        (∀ run ∈ runs, run.name ∈ ["respaldo-supabase", "supabase-backup",
          "restaurar-supabase", "supabase-restore"] → run ∈ kept) ∧
        kept.Sublist runs := by
  refine ⟨runs.filter isRecognizedRun, ?_, ?_, ?_, ?_, ?_, List.filter_sublist runs⟩
  · rw [refreshHistory_ok s status data runs hc hok hruns]; simp
  · rw [refreshHistory_ok s status data runs hc hok hruns]; simp
  · congr 1
    funext run
    rw [Bool.eq_iff_iff, isRecognizedRun_iff]
    simp
  · intro run hrun
    exact (isRecognizedRun_iff run).1 (List.mem_filter.1 hrun).2
  · intro run hrun hname
    exact List.mem_filter.2 ⟨hrun, (isRecognizedRun_iff run).2 hname⟩

/-- Witness of C3: a history with a backup, an unrelated run and a restore. -/
theorem refreshHistory_keeps_recognized_witness :
    ∃ kept : List Run,
      Event.displayBackupHistory (kept.map historyRow) ∈
          (refreshHistory sampleState (FetchOutcome.json 200 samplePayload)).2 ∧
        Event.lastBackup (updateLastBackupInfo kept) ∈
          (refreshHistory sampleState (FetchOutcome.json 200 samplePayload)).2 ∧
        kept = sampleRuns.filter (fun run => decide (run.name ∈ ["respaldo-supabase",
          "supabase-backup", "restaurar-supabase", "supabase-restore"])) ∧
        (∀ run ∈ kept, run.name ∈ ["respaldo-supabase", "supabase-backup",
          "restaurar-supabase", "supabase-restore"]) ∧
        (∀ run ∈ sampleRuns, run.name ∈ ["respaldo-supabase", "supabase-backup",
          "restaurar-supabase", "supabase-restore"] → run ∈ kept) ∧
        kept.Sublist sampleRuns :=
  refreshHistory_keeps_recognized sampleState 200 samplePayload sampleRuns (by decide)
    (by decide) rfl

/-- C6: `updateLastBackupInfo` takes the first record, in list order, whose name is
`respaldo-supabase` or `supabase-backup` and whose conclusion is `success`: no record
before it satisfies both conditions; and when no record satisfies both, the text is the
absence value `Último respaldo: No disponible` whatever the locale. -/
theorem updateLastBackupInfo_first_success (runs : List Run) :
    (∀ run, lastSuccessfulBackup runs = some run →
        ((run.name = "respaldo-supabase" ∨ run.name = "supabase-backup") ∧
          run.conclusion = some "success") ∧
        (∃ earlier later, runs = earlier ++ run :: later ∧
          ∀ x ∈ earlier, ¬ ((x.name = "respaldo-supabase" ∨ x.name = "supabase-backup") ∧
            x.conclusion = some "success")) ∧
        updateLastBackupInfo runs = LastBackupText.lastAt run.created_at) ∧
      ((∃ x ∈ runs, (x.name = "respaldo-supabase" ∨ x.name = "supabase-backup") ∧
          x.conclusion = some "success") →
        ∃ run, lastSuccessfulBackup runs = some run) ∧
      ((∀ x ∈ runs, ¬ ((x.name = "respaldo-supabase" ∨ x.name = "supabase-backup") ∧
          x.conclusion = some "success")) →
        lastSuccessfulBackup runs = none ∧
        updateLastBackupInfo runs = LastBackupText.noDisponible ∧
        ∀ toLocaleDateString toLocaleTimeString : Int → String,
          (updateLastBackupInfo runs).render toLocaleDateString toLocaleTimeString =
            "Último respaldo: No disponible") := by
  refine ⟨?_, ?_, ?_⟩
  · intro run hrun
    have hfind := hrun
    unfold lastSuccessfulBackup at hfind
    rw [List.find?_eq_some] at hfind
    obtain ⟨hp, earlier, later, hsplit, hearlier⟩ := hfind
    refine ⟨(isSuccessfulBackup_iff run).1 hp, ⟨earlier, later, hsplit, ?_⟩, ?_⟩
    · intro x hx hcond
      have := hearlier x hx
      rw [(isSuccessfulBackup_iff x).2 hcond] at this
      exact absurd this (by decide)
    · unfold updateLastBackupInfo
      rw [hrun]
  · rintro ⟨x, hx, hcond⟩
    have hsome : (runs.find? isSuccessfulBackup).isSome = true :=
      List.find?_isSome.2 ⟨x, hx, (isSuccessfulBackup_iff x).2 hcond⟩
    obtain ⟨run, hrun⟩ := Option.isSome_iff_exists.1 hsome
    exact ⟨run, hrun⟩
  · intro hnone
    have hfind : lastSuccessfulBackup runs = none := by
      unfold lastSuccessfulBackup
      rw [List.find?_eq_none]
      intro x hx hp
      exact hnone x hx ((isSuccessfulBackup_iff x).1 hp)
    have htext : updateLastBackupInfo runs = LastBackupText.noDisponible := by
      unfold updateLastBackupInfo
      rw [hfind]
    refine ⟨hfind, htext, ?_⟩
    intro f g
    rw [htext]
    rfl

/-! ## Trimming -/

theorem dropWhile_eq_nil_of_forall {α : Type} (p : α → Bool) (l : List α)
    (h : ∀ x ∈ l.dropWhile p, p x = true) : l.dropWhile p = [] := by
  induction l with
  | nil => rfl
  | cons a t ih =>
    by_cases ha : p a = true
    · simp only [List.dropWhile_cons_of_pos ha] at h ⊢
      exact ih h
    · exfalso
      simp only [List.dropWhile_cons_of_neg ha] at h
      exact ha (h a (List.mem_cons_self a t))

/-- The trimmed string is empty exactly for blank strings. -/
theorem jsTrim_eq_empty_iff (s : String) : jsTrim s = "" ↔ isBlank s = true := by
  unfold jsTrim isBlank
  rw [List.all_eq_true]
  constructor
  · intro h
    have h1 : ((s.data.dropWhile isJsWhitespace).reverse.dropWhile isJsWhitespace).reverse = [] :=
      congrArg String.data h
    rw [List.reverse_eq_nil_iff, List.dropWhile_eq_nil_iff] at h1
    have h2 : s.data.dropWhile isJsWhitespace = [] :=
      dropWhile_eq_nil_of_forall _ _ (fun x hx => h1 x (List.mem_reverse.2 hx))
    exact List.dropWhile_eq_nil_iff.1 h2
  · intro h
    rw [List.dropWhile_eq_nil_iff.2 h]
    rfl

/-! ## Dispatch -/

/-- Every outcome of `githubAPI` records exactly the one call. -/
theorem apiCalls_githubAPI (config : Config) (method endpoint : String)
    (data : Option DispatchBody) (outcome : FetchOutcome) :
    apiCalls (githubAPI config method endpoint data outcome).1 =
      [Event.githubAPI config method endpoint data] := by
  cases outcome <;> simp [githubAPI, apiCalls]

/-- In a connected state whose catalog resolves the backup workflow, `triggerBackup`
makes exactly one call, whatever the outcome: the POST of `ref: main` without inputs. -/
theorem triggerBackup_dispatch (s : State) (workflows : List Workflow) (w : Workflow)
    (outcome : FetchOutcome) (hc : s.appState.connected = true)
    (hw : s.appState.workflows = some workflows)
    (hf : workflows.find? isBackupWorkflow = some w) :
    apiCalls (triggerBackup s outcome).2 =
      [Event.githubAPI s.config "POST"
        ("/repos/" ++ s.config.repoOwner ++ "/" ++ s.config.repoName ++
          "/actions/workflows/" ++ toString w.id ++ "/dispatches")
        (some { ref := "main", inputs := none })] := by
  cases outcome with
  | networkError message => simp [triggerBackup, githubAPI, apiCalls, hc, hw, hf]
  | invalidBody status message => simp [triggerBackup, githubAPI, apiCalls, hc, hw, hf]
  | json status data =>
    by_cases hok : 200 ≤ status ∧ status ≤ 299
    · simp [triggerBackup, githubAPI, apiCalls, hc, hw, hf, hok]
    · simp [triggerBackup, githubAPI, apiCalls, hc, hw, hf, hok]

/-- With a response in the 200 range whose body parses, `triggerBackup` sets exactly one
timer: `refreshHistory` after 3000 ms. -/
theorem triggerBackup_refresh_of_json (s : State) (workflows : List Workflow) (w : Workflow)
    (status : Nat) (data : Payload) (hc : s.appState.connected = true)
    (hw : s.appState.workflows = some workflows)
    (hf : workflows.find? isBackupWorkflow = some w) (hok : 200 ≤ status ∧ status ≤ 299) :
    timeouts (triggerBackup s (FetchOutcome.json status data)).2 =
      [Event.setTimeout Callback.refreshHistory 3000] := by
  simp [triggerBackup, githubAPI, timeouts, hc, hw, hf, hok]

/-- With a response whose body does not parse, whatever its status, `triggerBackup` sets
no timer: the rejection of `response.json()` is caught as a failure. -/
theorem triggerBackup_no_refresh_of_invalidBody (s : State) (workflows : List Workflow)
    (w : Workflow) (status : Nat) (message : String) (hc : s.appState.connected = true)
    (hw : s.appState.workflows = some workflows)
    (hf : workflows.find? isBackupWorkflow = some w) :
    timeouts (triggerBackup s (FetchOutcome.invalidBody status message)).2 = [] := by
  simp [triggerBackup, githubAPI, timeouts, hc, hw, hf]

/-- The failing case of C1: with the backup workflow of id 42 in the catalog, the one
call is the POST to `.../workflows/42/dispatches` with `ref: main`; a 204 response with
an empty body (in the 200 range) leaves no refresh scheduled and reports an error, while
a 200 response with a JSON body schedules the one refresh after 3000 ms. -/
theorem triggerBackup_empty_success_response :
    apiCalls (triggerBackup sampleState
        (FetchOutcome.invalidBody 204 "Unexpected end of JSON input")).2 =
      [Event.githubAPI sampleConfig "POST"
        "/repos/Artur2000LP/backup-supabase/actions/workflows/42/dispatches"
        (some { ref := "main", inputs := none })] ∧
      timeouts (triggerBackup sampleState
        (FetchOutcome.invalidBody 204 "Unexpected end of JSON input")).2 = [] ∧
      Event.showNotification "Error al iniciar respaldo: Unexpected end of JSON input" "error" ∈
        (triggerBackup sampleState
          (FetchOutcome.invalidBody 204 "Unexpected end of JSON input")).2 ∧
      timeouts (triggerBackup sampleState (FetchOutcome.json 200 samplePayload)).2 =
        [Event.setTimeout Callback.refreshHistory 3000] := by
  decide

/-- C8: the `find` of `triggerBackup` finds a workflow iff the catalog has one named
exactly `respaldo-supabase` or `supabase-backup`, and then it is the first such; in a
connected state `triggerBackup` dispatches exactly that first workflow (one POST to the
dispatch endpoint of its id, whatever follows it in the catalog), it calls the provider
iff the catalog has such a name, and with no such name (as for the single name
`Backup-Supabase`) it only reports that the workflow was not found and makes no call,
in any state. -/
theorem triggerBackup_resolution (workflows : List Workflow) :
    ((workflows.find? isBackupWorkflow).isSome = true ↔
        ∃ w ∈ workflows, w.name = "respaldo-supabase" ∨ w.name = "supabase-backup") ∧
      (∀ w, workflows.find? isBackupWorkflow = some w →
        (w.name = "respaldo-supabase" ∨ w.name = "supabase-backup") ∧
        ∃ earlier later, workflows = earlier ++ w :: later ∧
          ∀ x ∈ earlier, ¬ (x.name = "respaldo-supabase" ∨ x.name = "supabase-backup")) ∧
      (∀ (earlier later : List Workflow) (w : Workflow),
        workflows = earlier ++ w :: later →
        (∀ x ∈ earlier, ¬ (x.name = "respaldo-supabase" ∨ x.name = "supabase-backup")) →
        (w.name = "respaldo-supabase" ∨ w.name = "supabase-backup") →
        ∀ (s : State) (outcome : FetchOutcome), s.appState.connected = true →
          s.appState.workflows = some workflows →
          apiCalls (triggerBackup s outcome).2 =
            [Event.githubAPI s.config "POST"
              ("/repos/" ++ s.config.repoOwner ++ "/" ++ s.config.repoName ++
                "/actions/workflows/" ++ toString w.id ++ "/dispatches")
              (some { ref := "main", inputs := none })]) ∧
      (∀ (s : State) (outcome : FetchOutcome), s.appState.connected = true →
        s.appState.workflows = some workflows →
        (apiCalls (triggerBackup s outcome).2 ≠ [] ↔
          (workflows.find? isBackupWorkflow).isSome = true)) ∧
      ((∀ w ∈ workflows, ¬ (w.name = "respaldo-supabase" ∨ w.name = "supabase-backup")) →
        workflows.find? isBackupWorkflow = none ∧
        (∀ (s : State) (outcome : FetchOutcome), s.appState.workflows = some workflows →
          apiCalls (triggerBackup s outcome).2 = []) ∧
        ∀ (s : State) (outcome : FetchOutcome), s.appState.connected = true →
          s.appState.workflows = some workflows →
          triggerBackup s outcome =
            (s, [Event.showNotification "No se encontró el workflow de respaldo" "error"])) ∧
      [({ id := 7, name := "Backup-Supabase" } : Workflow)].find? isBackupWorkflow = none ∧
      triggerBackup wrongCaseState (FetchOutcome.json 200 samplePayload) =
        (wrongCaseState,
          [Event.showNotification "No se encontró el workflow de respaldo" "error"]) ∧
      apiCalls (triggerBackup twoAliasState (FetchOutcome.json 200 samplePayload)).2 =
        [Event.githubAPI sampleConfig "POST"
          "/repos/Artur2000LP/backup-supabase/actions/workflows/5/dispatches"
          (some { ref := "main", inputs := none })] := by
  refine ⟨?_, ?_, ?_, ?_, ?_, by decide, by decide, by decide⟩
  · rw [List.find?_isSome]
    constructor
    · rintro ⟨w, hw, hp⟩
      exact ⟨w, hw, (isBackupWorkflow_iff w).1 hp⟩
    · rintro ⟨w, hw, hp⟩
      exact ⟨w, hw, (isBackupWorkflow_iff w).2 hp⟩
  · intro w hfind
    rw [List.find?_eq_some] at hfind
    obtain ⟨hp, earlier, later, hsplit, hearlier⟩ := hfind
    refine ⟨(isBackupWorkflow_iff w).1 hp, earlier, later, hsplit, ?_⟩
    intro x hx hname
    have := hearlier x hx
    rw [(isBackupWorkflow_iff x).2 hname] at this
    exact absurd this (by decide)
  · intro earlier later w hsplit hearlier hw s outcome hc hws
    have hfind : workflows.find? isBackupWorkflow = some w := by
      rw [List.find?_eq_some]
      refine ⟨(isBackupWorkflow_iff w).2 hw, earlier, later, hsplit, ?_⟩
      intro x hx
      have hx2 : ¬ isBackupWorkflow x = true :=
        fun hp => hearlier x hx ((isBackupWorkflow_iff x).1 hp)
      simp [hx2]
    exact triggerBackup_dispatch s workflows w outcome hc hws hfind
  · intro s outcome hc hw
    cases hfind : workflows.find? isBackupWorkflow with
    | none => simp [triggerBackup, apiCalls, hc, hw, hfind]
    | some w => simp [triggerBackup_dispatch s workflows w outcome hc hw hfind]
  · intro hnone
    have hfind : workflows.find? isBackupWorkflow = none := by
      rw [List.find?_eq_none]
      intro x hx hp
      exact hnone x hx ((isBackupWorkflow_iff x).1 hp)
    refine ⟨hfind, ?_, ?_⟩
    · intro s outcome hw
      by_cases hc : s.appState.connected = true
      · simp [triggerBackup, apiCalls, hc, hw, hfind]
      · simp [triggerBackup, apiCalls, hc]
    · intro s outcome hc hw
      simp [triggerBackup, hc, hw, hfind]

/-! ## Restore -/

/-- C4: in a connected state, when the restore target is empty or whitespace-only,
`executeRestore` only reports the validation error: the state is unchanged, no
confirmation is asked, no call is made and no refresh is scheduled. -/
theorem executeRestore_blank_target (s : State) (confirmed : Bool) (outcome : FetchOutcome)
    (hc : s.appState.connected = true) (hb : isBlank s.form.targetDbUrl = true) :
    executeRestore s confirmed outcome =
        (s, [Event.showNotification "Por favor ingresa la URL de la base de datos destino"
              "error"]) ∧
      confirmations (executeRestore s confirmed outcome).2 = [] ∧
      apiCalls (executeRestore s confirmed outcome).2 = [] ∧
      timeouts (executeRestore s confirmed outcome).2 = [] := by
  have ht : jsTrim s.form.targetDbUrl = "" := (jsTrim_eq_empty_iff _).2 hb
  have h : executeRestore s confirmed outcome =
      (s, [Event.showNotification "Por favor ingresa la URL de la base de datos destino"
            "error"]) := by
    simp [executeRestore, hc, ht]
  rw [h]
  exact ⟨rfl, rfl, rfl, rfl⟩

/-- Witness of C4: a connected state whose target is a space, a tab and a line feed,
with the operator ready to confirm and the provider ready to accept. -/
theorem executeRestore_blank_target_witness :
    executeRestore blankTargetState true (FetchOutcome.json 200 samplePayload) =
        (blankTargetState,
          [Event.showNotification "Por favor ingresa la URL de la base de datos destino"
            "error"]) ∧
      confirmations
        (executeRestore blankTargetState true (FetchOutcome.json 200 samplePayload)).2 = [] ∧
      apiCalls
        (executeRestore blankTargetState true (FetchOutcome.json 200 samplePayload)).2 = [] ∧
      timeouts
        (executeRestore blankTargetState true (FetchOutcome.json 200 samplePayload)).2 = [] :=
  executeRestore_blank_target blankTargetState true (FetchOutcome.json 200 samplePayload)
    (by decide) (by decide)

/-- C5: for a confirmed restore in a connected state whose trimmed target is non-empty
and whose catalog resolves the restore workflow `w`, the one call `executeRestore`
makes is the POST to the dispatch endpoint of `w` with `ref: main` and the five inputs:
the trimmed target, the selected date, and each flag as the string `true` or `false`. -/
theorem executeRestore_dispatch_body (s : State) (workflows : List Workflow) (w : Workflow)
    (outcome : FetchOutcome) (hc : s.appState.connected = true)
    (ht : jsTrim s.form.targetDbUrl ≠ "") (hw : s.appState.workflows = some workflows)
    (hf : workflows.find? isRestoreWorkflow = some w) :
    apiCalls (executeRestore s true outcome).2 =
      [Event.githubAPI s.config "POST"
        ("/repos/" ++ s.config.repoOwner ++ "/" ++ s.config.repoName ++
          "/actions/workflows/" ++ toString w.id ++ "/dispatches")
        (some { ref := "main",
                inputs := some
                  { target_db_url := jsTrim s.form.targetDbUrl,
                    backup_date := s.form.backupDate,
                    restore_roles := if s.form.restoreRoles = true then "true" else "false",
                    restore_schema := if s.form.restoreSchema = true then "true" else "false",
                    restore_data := if s.form.restoreData = true then "true" else "false" } })] := by
  cases outcome with
  | networkError message =>
    simp [executeRestore, githubAPI, apiCalls, boolToString, hc, ht, hw, hf]
  | invalidBody status message =>
    simp [executeRestore, githubAPI, apiCalls, boolToString, hc, ht, hw, hf]
  | json status data =>
    by_cases hok : 200 ≤ status ∧ status ≤ 299
    · simp [executeRestore, githubAPI, apiCalls, boolToString, hc, ht, hw, hf, hok]
    · simp [executeRestore, githubAPI, apiCalls, boolToString, hc, ht, hw, hf, hok]

/-- Witness of C5: the sample form (roles and data checked, schema unchecked) against
the sample catalog, whose restore workflow has id 43. -/
theorem executeRestore_dispatch_body_witness :
    apiCalls (executeRestore sampleState true (FetchOutcome.json 200 samplePayload)).2 =
      [Event.githubAPI sampleConfig "POST"
        "/repos/Artur2000LP/backup-supabase/actions/workflows/43/dispatches"
        (some { ref := "main",
                inputs := some
                  { target_db_url := "postgresql://db.example/postgres",
                    backup_date := "latest",
                    restore_roles := "true",
                    restore_schema := "false",
                    restore_data := "true" } })] :=
  executeRestore_dispatch_body sampleState sampleWorkflows { id := 43, name := "supabase-restore" }
    (FetchOutcome.json 200 samplePayload) (by decide) (by decide) rfl (by decide)

/-! ## Saving the configuration -/

/-- Whatever its branch, `testConnection` writes the status line. -/
theorem testConnection_statusWrites (s : State) (probe workflows runs : FetchOutcome) :
    statusWrites (testConnection s probe workflows runs).2 ≠ [] := by
  unfold testConnection
  split_ifs with h
  · simp [updateStatus, statusWrites]
  · cases probe with
    | networkError message => simp [updateStatus, githubAPI, statusWrites]
    | invalidBody status message => simp [updateStatus, githubAPI, statusWrites]
    | json status data =>
      by_cases hok : 200 ≤ status ∧ status ≤ 299
      · simp [updateStatus, githubAPI, statusWrites, hok]
      · simp [updateStatus, githubAPI, statusWrites, hok]

/-- C9: when the token, the owner or the repository field is empty or whitespace-only,
`saveConfig` only reports the validation error: the storage item and `config` (the whole
state) are unchanged, and no probe starts (no status-line write, no call). -/
theorem saveConfig_blank_field (s : State) (probe workflows runs : FetchOutcome)
    (hb : isBlank s.form.githubToken = true ∨ isBlank s.form.repoOwner = true ∨
      isBlank s.form.repoName = true) :
    (saveConfig s probe workflows runs).1 = s ∧
      (saveConfig s probe workflows runs).1.storage = s.storage ∧
      (saveConfig s probe workflows runs).1.config = s.config ∧
      (saveConfig s probe workflows runs).2 =
        [Event.showNotification "Por favor completa todos los campos" "error"] ∧
      statusWrites (saveConfig s probe workflows runs).2 = [] ∧
      apiCalls (saveConfig s probe workflows runs).2 = [] := by
  have hcond : (jsTrim s.form.githubToken = "" ∨ jsTrim s.form.repoOwner = "") ∨
      jsTrim s.form.repoName = "" := by
    rcases hb with h | h | h
    · exact Or.inl (Or.inl ((jsTrim_eq_empty_iff _).2 h))
    · exact Or.inl (Or.inr ((jsTrim_eq_empty_iff _).2 h))
    · exact Or.inr ((jsTrim_eq_empty_iff _).2 h)
  have h : saveConfig s probe workflows runs =
      (s, [Event.showNotification "Por favor completa todos los campos" "error"]) := by
    unfold saveConfig
    simp only [Bool.or_eq_true, decide_eq_true_eq]
    rw [if_pos hcond]
  rw [h]
  exact ⟨rfl, rfl, rfl, rfl, rfl, rfl⟩

/-- Witness of C9: the sample form with an owner of two spaces. -/
theorem saveConfig_blank_field_witness :
    (saveConfig blankOwnerState (FetchOutcome.json 200 samplePayload)
        (FetchOutcome.json 200 samplePayload) (FetchOutcome.json 200 samplePayload)).1 =
        blankOwnerState ∧
      (saveConfig blankOwnerState (FetchOutcome.json 200 samplePayload)
        (FetchOutcome.json 200 samplePayload) (FetchOutcome.json 200 samplePayload)).1.storage =
        blankOwnerState.storage ∧
      (saveConfig blankOwnerState (FetchOutcome.json 200 samplePayload)
        (FetchOutcome.json 200 samplePayload) (FetchOutcome.json 200 samplePayload)).1.config =
        blankOwnerState.config ∧
      (saveConfig blankOwnerState (FetchOutcome.json 200 samplePayload)
        (FetchOutcome.json 200 samplePayload) (FetchOutcome.json 200 samplePayload)).2 =
        [Event.showNotification "Por favor completa todos los campos" "error"] ∧
      statusWrites (saveConfig blankOwnerState (FetchOutcome.json 200 samplePayload)
        (FetchOutcome.json 200 samplePayload) (FetchOutcome.json 200 samplePayload)).2 = [] ∧
      apiCalls (saveConfig blankOwnerState (FetchOutcome.json 200 samplePayload)
        (FetchOutcome.json 200 samplePayload) (FetchOutcome.json 200 samplePayload)).2 = [] :=
  saveConfig_blank_field blankOwnerState (FetchOutcome.json 200 samplePayload)
    (FetchOutcome.json 200 samplePayload) (FetchOutcome.json 200 samplePayload)
    (Or.inr (Or.inl (by decide)))

/-! ## Calls are made under a complete configuration -/

theorem apiConfigs_append (a b : List Event) :
    apiConfigs (a ++ b) = apiConfigs a ++ apiConfigs b := by
  simp [apiConfigs, List.filterMap_append]

theorem apiConfigs_githubAPI (config : Config) (method endpoint : String)
    (data : Option DispatchBody) (outcome : FetchOutcome) :
    apiConfigs (githubAPI config method endpoint data outcome).1 = [config] := by
  cases outcome <;> simp [githubAPI, apiConfigs]

theorem updateStatus_config (s : State) (status message : String) :
    (updateStatus s status message).1.config = s.config := by
  unfold updateStatus
  split_ifs <;> rfl

theorem updateStatus_apiConfigs (s : State) (status message : String) :
    apiConfigs (updateStatus s status message).2 = [] := by
  simp [updateStatus, apiConfigs]

/-- Function `loadWorkflows` has no guard: it calls under whatever configuration is current, and
leaves the configuration and the connection flag as they are. -/
theorem loadWorkflows_spec (s : State) (outcome : FetchOutcome) :
    (loadWorkflows s outcome).1.config = s.config ∧
      (loadWorkflows s outcome).1.appState.connected = s.appState.connected ∧
      apiConfigs (loadWorkflows s outcome).2 = [s.config] := by
  cases outcome with
  | networkError message => simp [loadWorkflows, githubAPI, apiConfigs]
  | invalidBody status message => simp [loadWorkflows, githubAPI, apiConfigs]
  | json status data =>
    by_cases hok : 200 ≤ status ∧ status ≤ 299
    · simp [loadWorkflows, githubAPI, apiConfigs, hok]
    · simp [loadWorkflows, githubAPI, apiConfigs, hok]

/-- Function `refreshHistory` never changes the state, and calls only when connected. -/
theorem refreshHistory_spec (s : State) (outcome : FetchOutcome) :
    (refreshHistory s outcome).1 = s ∧
      ∀ c ∈ apiConfigs (refreshHistory s outcome).2,
        c = s.config ∧ s.appState.connected = true := by
  by_cases hc : s.appState.connected = true
  · cases outcome with
    | networkError message => simp [refreshHistory, githubAPI, apiConfigs, hc]
    | invalidBody status message => simp [refreshHistory, githubAPI, apiConfigs, hc]
    | json status data =>
      by_cases hok : 200 ≤ status ∧ status ≤ 299
      · cases hruns : data.workflow_runs <;>
          simp [refreshHistory, githubAPI, apiConfigs, displayBackupHistory, hc, hok, hruns]
      · simp [refreshHistory, githubAPI, apiConfigs, hc, hok]
  · simp [refreshHistory, apiConfigs, hc]

theorem isComplete_of_not (config : Config)
    (h : ¬ ((config.githubToken = "" ∨ config.repoOwner = "") ∨ config.repoName = "")) :
    config.isComplete = true := by
  simp only [Config.isComplete, Bool.not_eq_true', Bool.or_eq_false_iff, decide_eq_false_iff_not]
  exact ⟨⟨fun h1 => h (Or.inl (Or.inl h1)), fun h2 => h (Or.inl (Or.inr h2))⟩,
    fun h3 => h (Or.inr h3)⟩

/-- The successful branch of `testConnection`: status line, probe, status line, then
`loadWorkflows` and `refreshHistory` in the connected state. -/
theorem testConnection_ok (s : State) (status : Nat) (data : Payload)
    (workflows runs : FetchOutcome)
    (h : ¬ ((s.config.githubToken = "" ∨ s.config.repoOwner = "") ∨ s.config.repoName = ""))
    (hok : 200 ≤ status ∧ status ≤ 299) :
    testConnection s (FetchOutcome.json status data) workflows runs =
      ((refreshHistory (loadWorkflows
          { s with appState := { s.appState with connected := true } } workflows).1 runs).1,
        [Event.statusLine "connecting" "Conectando...",
         Event.githubAPI s.config "GET"
           ("/repos/" ++ s.config.repoOwner ++ "/" ++ s.config.repoName) none,
         Event.statusLine "connected" "Conectado"] ++
        (loadWorkflows
          { s with appState := { s.appState with connected := true } } workflows).2 ++
        (refreshHistory (loadWorkflows
          { s with appState := { s.appState with connected := true } } workflows).1 runs).2) := by
  simp [testConnection, githubAPI, updateStatus, h, hok]

/-- Function `testConnection` keeps the configuration, connects only under a complete one, and
calls only under the current configuration when it is complete. -/
theorem testConnection_spec (s : State) (probe workflows runs : FetchOutcome) :
    (testConnection s probe workflows runs).1.config = s.config ∧
      ((testConnection s probe workflows runs).1.appState.connected = true →
        s.config.isComplete = true) ∧
      ∀ c ∈ apiConfigs (testConnection s probe workflows runs).2,
        c = s.config ∧ s.config.isComplete = true := by
  by_cases h : (s.config.githubToken = "" ∨ s.config.repoOwner = "") ∨ s.config.repoName = ""
  · have hres : testConnection s probe workflows runs =
        updateStatus s "disconnected" "Configuración incompleta" := by
      unfold testConnection
      simp only [Bool.or_eq_true, decide_eq_true_eq]
      rw [if_pos h]
    rw [hres]
    refine ⟨updateStatus_config _ _ _, ?_, ?_⟩
    · simp [updateStatus]
    · simp [updateStatus, apiConfigs]
  · have hcomp := isComplete_of_not s.config h
    refine ⟨?_, fun _ => hcomp, ?_⟩
    · cases probe with
      | networkError message => simp [testConnection, githubAPI, updateStatus, h]
      | invalidBody status message => simp [testConnection, githubAPI, updateStatus, h]
      | json status data =>
        by_cases hok : 200 ≤ status ∧ status ≤ 299
        · rw [testConnection_ok s status data workflows runs h hok]
          simp only [(refreshHistory_spec _ _).1, (loadWorkflows_spec _ _).1]
        · simp [testConnection, githubAPI, updateStatus, h, hok]
    · intro c hc
      refine ⟨?_, hcomp⟩
      cases probe with
      | networkError message =>
        simp [testConnection, githubAPI, updateStatus, apiConfigs, h] at hc
        exact hc
      | invalidBody status message =>
        simp [testConnection, githubAPI, updateStatus, apiConfigs, h] at hc
        exact hc
      | json status data =>
        by_cases hok : 200 ≤ status ∧ status ≤ 299
        · rw [testConnection_ok s status data workflows runs h hok, apiConfigs_append,
            apiConfigs_append, (loadWorkflows_spec _ _).2.2, List.mem_append,
            List.mem_append] at hc
          rcases hc with (hc | hc) | hc
          · simp [apiConfigs] at hc
            exact hc
          · simpa using hc
          · have := ((refreshHistory_spec _ _).2 c hc).1
            rw [this, (loadWorkflows_spec _ _).1]
        · simp [testConnection, githubAPI, updateStatus, apiConfigs, h, hok] at hc
          exact hc

/-- Function `triggerBackup` never changes the state, and calls only when connected. -/
theorem triggerBackup_spec (s : State) (outcome : FetchOutcome) :
    (triggerBackup s outcome).1 = s ∧
      ∀ c ∈ apiConfigs (triggerBackup s outcome).2,
        c = s.config ∧ s.appState.connected = true := by
  by_cases hc : s.appState.connected = true
  · cases hw : s.appState.workflows with
    | none => simp [triggerBackup, apiConfigs, hc, hw]
    | some workflows =>
      cases hf : workflows.find? isBackupWorkflow with
      | none => simp [triggerBackup, apiConfigs, hc, hw, hf]
      | some w =>
        cases outcome with
        | networkError message => simp [triggerBackup, githubAPI, apiConfigs, hc, hw, hf]
        | invalidBody status message => simp [triggerBackup, githubAPI, apiConfigs, hc, hw, hf]
        | json status data =>
          by_cases hok : 200 ≤ status ∧ status ≤ 299
          · simp [triggerBackup, githubAPI, apiConfigs, hc, hw, hf, hok]
          · simp [triggerBackup, githubAPI, apiConfigs, hc, hw, hf, hok]
  · simp [triggerBackup, apiConfigs, hc]

/-- Function `executeRestore` writes only to the form, and calls only when connected. -/
theorem executeRestore_spec (s : State) (confirmed : Bool) (outcome : FetchOutcome) :
    (executeRestore s confirmed outcome).1.config = s.config ∧
      (executeRestore s confirmed outcome).1.appState = s.appState ∧
      ∀ c ∈ apiConfigs (executeRestore s confirmed outcome).2,
        c = s.config ∧ s.appState.connected = true := by
  by_cases hc : s.appState.connected = true
  · by_cases ht : jsTrim s.form.targetDbUrl = ""
    · simp [executeRestore, apiConfigs, hc, ht]
    · cases confirmed with
      | false => simp [executeRestore, apiConfigs, hc, ht]
      | true =>
        cases hw : s.appState.workflows with
        | none => simp [executeRestore, apiConfigs, hc, ht, hw]
        | some workflows =>
          cases hf : workflows.find? isRestoreWorkflow with
          | none => simp [executeRestore, apiConfigs, hc, ht, hw, hf]
          | some w =>
            cases outcome with
            | networkError message =>
              simp [executeRestore, githubAPI, apiConfigs, hc, ht, hw, hf]
            | invalidBody status message =>
              simp [executeRestore, githubAPI, apiConfigs, hc, ht, hw, hf]
            | json status data =>
              by_cases hok : 200 ≤ status ∧ status ≤ 299
              · simp [executeRestore, githubAPI, apiConfigs, hc, ht, hw, hf, hok]
              · simp [executeRestore, githubAPI, apiConfigs, hc, ht, hw, hf, hok]
  · simp [executeRestore, apiConfigs, hc]

/-- Function `saveConfig` either rejects the form and leaves everything as it was, or installs a
complete configuration and probes under it. -/
theorem saveConfig_spec (s : State) (probe workflows runs : FetchOutcome) :
    ((saveConfig s probe workflows runs).1 = s ∧
        apiConfigs (saveConfig s probe workflows runs).2 = []) ∨
      ((saveConfig s probe workflows runs).1.config.isComplete = true ∧
        ∀ c ∈ apiConfigs (saveConfig s probe workflows runs).2, c.isComplete = true) := by
  by_cases h : (jsTrim s.form.githubToken = "" ∨ jsTrim s.form.repoOwner = "") ∨
      jsTrim s.form.repoName = ""
  · left
    have hres : saveConfig s probe workflows runs =
        (s, [Event.showNotification "Por favor completa todos los campos" "error"]) := by
      unfold saveConfig
      simp only [Bool.or_eq_true, decide_eq_true_eq]
      rw [if_pos h]
    rw [hres]
    exact ⟨rfl, rfl⟩
  · right
    have hres : saveConfig s probe workflows runs =
        ((testConnection
            { s with config := { s.config with githubToken := jsTrim s.form.githubToken,
                                               repoOwner := jsTrim s.form.repoOwner,
                                               repoName := jsTrim s.form.repoName },
                     storage := some (stringifyConfig
                       { s.config with githubToken := jsTrim s.form.githubToken,
                                       repoOwner := jsTrim s.form.repoOwner,
                                       repoName := jsTrim s.form.repoName }) }
            probe workflows runs).1,
          Event.showNotification "Configuración guardada correctamente" "success" ::
            (testConnection
              { s with config := { s.config with githubToken := jsTrim s.form.githubToken,
                                                 repoOwner := jsTrim s.form.repoOwner,
                                                 repoName := jsTrim s.form.repoName },
                       storage := some (stringifyConfig
                         { s.config with githubToken := jsTrim s.form.githubToken,
                                         repoOwner := jsTrim s.form.repoOwner,
                                         repoName := jsTrim s.form.repoName }) }
              probe workflows runs).2) := by
      unfold saveConfig
      simp only [Bool.or_eq_true, decide_eq_true_eq]
      rw [if_neg h]
    have hcomp : ({ s.config with githubToken := jsTrim s.form.githubToken,
                                  repoOwner := jsTrim s.form.repoOwner,
                                  repoName := jsTrim s.form.repoName } : Config).isComplete
        = true := isComplete_of_not _ h
    rw [hres]
    constructor
    · simp only [(testConnection_spec _ _ _ _).1]
      exact hcomp
    · intro c hc
      have hmem : c ∈ apiConfigs (testConnection
          { s with config := { s.config with githubToken := jsTrim s.form.githubToken,
                                             repoOwner := jsTrim s.form.repoOwner,
                                             repoName := jsTrim s.form.repoName },
                   storage := some (stringifyConfig
                     { s.config with githubToken := jsTrim s.form.githubToken,
                                     repoOwner := jsTrim s.form.repoOwner,
                                     repoName := jsTrim s.form.repoName }) }
          probe workflows runs).2 := by
        simpa [apiConfigs] using hc
      have := (testConnection_spec _ _ _ _).2.2 c hmem
      rw [this.1]
      exact hcomp

/-- Every step keeps the invariant, and every step other than a bare `loadWorkflows`
calls only under a complete configuration. -/
theorem step_invariant (s : State) (st : Step) (h : ConnectedComplete s) :
    ConnectedComplete (step s st).1 ∧
      (st.isLoadWorkflows = false → ∀ c ∈ apiConfigs (step s st).2, c.isComplete = true) := by
  cases st with
  | editForm form =>
    exact ⟨h, fun _ c hc => by simp [step, apiConfigs] at hc⟩
  | saveConfig probe workflows runs =>
    rcases saveConfig_spec s probe workflows runs with ⟨hs, hnil⟩ | ⟨hcomp, hall⟩
    · refine ⟨?_, fun _ c hc => ?_⟩
      · show ConnectedComplete (saveConfig s probe workflows runs).1
        rw [hs]; exact h
      · have hc2 : c ∈ apiConfigs (saveConfig s probe workflows runs).2 := hc
        rw [hnil] at hc2
        exact absurd hc2 (List.not_mem_nil c)
    · exact ⟨fun _ => hcomp, fun _ c hc => hall c hc⟩
  | testConnection probe workflows runs =>
    have hspec := testConnection_spec s probe workflows runs
    refine ⟨fun hconn => ?_, fun _ c hc => ?_⟩
    · show (testConnection s probe workflows runs).1.config.isComplete = true
      rw [hspec.1]
      exact hspec.2.1 hconn
    · have := hspec.2.2 c hc
      rw [this.1]
      exact this.2
  | tick =>
    refine ⟨fun hconn => ?_, fun _ c hc => ?_⟩
    · simp [step, updateStatus] at hconn
    · simp [step, updateStatus, apiConfigs] at hc
  | triggerBackup outcome =>
    have hspec := triggerBackup_spec s outcome
    refine ⟨?_, fun _ c hc => ?_⟩
    · show ConnectedComplete (triggerBackup s outcome).1
      rw [hspec.1]; exact h
    · have := hspec.2 c hc
      rw [this.1]
      exact h this.2
  | executeRestore confirmed outcome =>
    have hspec := executeRestore_spec s confirmed outcome
    refine ⟨fun hconn => ?_, fun _ c hc => ?_⟩
    · show (executeRestore s confirmed outcome).1.config.isComplete = true
      have hconn2 : (executeRestore s confirmed outcome).1.appState.connected = true := hconn
      rw [hspec.2.1] at hconn2
      rw [hspec.1]
      exact h hconn2
    · have := hspec.2.2 c hc
      rw [this.1]
      exact h this.2
  | refreshHistory outcome =>
    have hspec := refreshHistory_spec s outcome
    refine ⟨?_, fun _ c hc => ?_⟩
    · show ConnectedComplete (refreshHistory s outcome).1
      rw [hspec.1]; exact h
    · have := hspec.2 c hc
      rw [this.1]
      exact h this.2
  | loadWorkflows outcome =>
    have hspec := loadWorkflows_spec s outcome
    refine ⟨fun hconn => ?_, fun hbare => by simp [Step.isLoadWorkflows] at hbare⟩
    show (loadWorkflows s outcome).1.config.isComplete = true
    have hconn2 : (loadWorkflows s outcome).1.appState.connected = true := hconn
    rw [hspec.2.1] at hconn2
    rw [hspec.1]
    exact h hconn2

/-- No step makes a complete configuration incomplete. -/
theorem step_keeps_complete (s : State) (st : Step) (h : s.config.isComplete = true) :
    (step s st).1.config.isComplete = true := by
  cases st with
  | editForm form => exact h
  | saveConfig probe workflows runs =>
    rcases saveConfig_spec s probe workflows runs with ⟨hs, _⟩ | ⟨hcomp, _⟩
    · show (saveConfig s probe workflows runs).1.config.isComplete = true
      rw [hs]; exact h
    · exact hcomp
  | testConnection probe workflows runs =>
    show (testConnection s probe workflows runs).1.config.isComplete = true
    rw [(testConnection_spec s probe workflows runs).1]; exact h
  | tick =>
    show (updateStatus s).1.config.isComplete = true
    rw [updateStatus_config]; exact h
  | triggerBackup outcome =>
    show (triggerBackup s outcome).1.config.isComplete = true
    rw [(triggerBackup_spec s outcome).1]; exact h
  | executeRestore confirmed outcome =>
    show (executeRestore s confirmed outcome).1.config.isComplete = true
    rw [(executeRestore_spec s confirmed outcome).1]; exact h
  | refreshHistory outcome =>
    show (refreshHistory s outcome).1.config.isComplete = true
    rw [(refreshHistory_spec s outcome).1]; exact h
  | loadWorkflows outcome =>
    show (loadWorkflows s outcome).1.config.isComplete = true
    rw [(loadWorkflows_spec s outcome).1]; exact h

/-- The invariant and the guard on calls extend to sequences of steps. -/
theorem run_invariant (steps : List Step) :
    ∀ s : State, ConnectedComplete s →
      ConnectedComplete (run s steps).1 ∧
        ((∀ st ∈ steps, st.isLoadWorkflows = false) →
          ∀ c ∈ apiConfigs (run s steps).2, c.isComplete = true) := by
  induction steps with
  | nil =>
    intro s h
    exact ⟨h, fun _ c hc => by simp [run, apiConfigs] at hc⟩
  | cons st rest ih =>
    intro s h
    have hstep := step_invariant s st h
    have hrest := ih (step s st).1 hstep.1
    refine ⟨hrest.1, fun hall c hc => ?_⟩
    have hc2 : c ∈ apiConfigs ((step s st).2 ++ (run (step s st).1 rest).2) := hc
    rw [apiConfigs_append, List.mem_append] at hc2
    rcases hc2 with hc2 | hc2
    · exact hstep.2 (hall st (List.mem_cons_self st rest)) c hc2
    · exact hrest.2 (fun x hx => hall x (List.mem_cons_of_mem st hx)) c hc2

/-- Start-up makes no call and leaves the panel disconnected. -/
theorem startup_spec (storage : Option StoredConfig) (form : Form) :
    (startup storage form).1.appState.connected = false ∧
      apiConfigs (startup storage form).2 = [] := by
  simp [startup, updateStatus, initializeApp, apiConfigs]

/-- Counterexample to C10 as stated: after start-up on an empty storage item, one
`loadWorkflows` step calls `githubAPI` under the initial configuration, whose token is
empty. -/
theorem session_loadWorkflows_unguarded :
    apiConfigs (session none emptyForm
        [Step.loadWorkflows (FetchOutcome.networkError "Failed to fetch")]).2 =
        [defaultConfig] ∧
      defaultConfig.githubToken = "" ∧
      defaultConfig.isComplete = false ∧
      ¬ (∀ (storage : Option StoredConfig) (form : Form) (steps : List Step),
          ∀ c ∈ apiConfigs (session storage form steps).2, c.isComplete = true) := by
  refine ⟨by decide, rfl, by decide, ?_⟩
  intro hall
  have := hall none emptyForm
    [Step.loadWorkflows (FetchOutcome.networkError "Failed to fetch")] defaultConfig (by decide)
  exact absurd this (by decide)

/-- The calls attributed to the steps are exactly the calls of the run, in order. -/
theorem runCalls_snd (steps : List Step) :
    ∀ s : State, (runCalls s steps).map Prod.snd = apiConfigs (run s steps).2 := by
  induction steps with
  | nil =>
    intro s
    simp [runCalls, run, apiConfigs]
  | cons st rest ih =>
    intro s
    have hrun : (run s (st :: rest)).2 = (step s st).2 ++ (run (step s st).1 rest).2 := rfl
    rw [hrun, apiConfigs_append, ← ih (step s st).1]
    simp [runCalls, List.map_append, Function.comp_def]

/-- From a state satisfying the invariant, every call of a step other than a bare
`loadWorkflows` is made under a complete configuration, whatever the other steps are. -/
theorem runCalls_complete (steps : List Step) :
    ∀ s : State, ConnectedComplete s →
      ∀ p ∈ runCalls s steps, p.1.isLoadWorkflows = false → p.2.isComplete = true := by
  induction steps with
  | nil =>
    intro s _ p hp
    simp [runCalls] at hp
  | cons st rest ih =>
    intro s h p hp hbare
    have hstep := step_invariant s st h
    have hp2 : p ∈ (apiConfigs (step s st).2).map (fun c => (st, c)) ++
        runCalls (step s st).1 rest := hp
    rw [List.mem_append] at hp2
    rcases hp2 with hp2 | hp2
    · rw [List.mem_map] at hp2
      obtain ⟨c, hc, hpc⟩ := hp2
      subst hpc
      exact hstep.2 hbare c hc
    · exact ih (step s st).1 hstep.1 p hp2 hbare

/-- C10, amended: in every state reached from start-up by any sequence of steps
(form edits, `saveConfig`, `testConnection`, timer ticks, `triggerBackup`,
`executeRestore`, `refreshHistory`, `loadWorkflows`), a connected state has a complete
configuration; the calls attributed to the steps are exactly the calls of the session;
and every call made by a step other than a bare `loadWorkflows` is made under a
configuration whose token, owner and repository are all non-empty, whether or not the
session also contains bare `loadWorkflows` steps (so in a session without such steps
every call is). -/
theorem session_calls_complete (storage : Option StoredConfig) (form : Form)
    (steps : List Step) :
    ((session storage form steps).1.appState.connected = true →
        (session storage form steps).1.config.githubToken ≠ "" ∧
        (session storage form steps).1.config.repoOwner ≠ "" ∧
        (session storage form steps).1.config.repoName ≠ "") ∧
      (sessionCalls storage form steps).map Prod.snd =
        apiConfigs (session storage form steps).2 ∧
      (∀ p ∈ sessionCalls storage form steps, p.1.isLoadWorkflows = false →
        p.2.githubToken ≠ "" ∧ p.2.repoOwner ≠ "" ∧ p.2.repoName ≠ "") ∧
      ((∀ st ∈ steps, st.isLoadWorkflows = false) →
        ∀ c ∈ apiConfigs (session storage form steps).2,
          c.githubToken ≠ "" ∧ c.repoOwner ≠ "" ∧ c.repoName ≠ "") := by
  have hunfold : ∀ c : Config, c.isComplete = true →
      c.githubToken ≠ "" ∧ c.repoOwner ≠ "" ∧ c.repoName ≠ "" := by
    intro c hc
    simp only [Config.isComplete, Bool.not_eq_true', Bool.or_eq_false_iff,
      decide_eq_false_iff_not] at hc
    exact ⟨hc.1.1, hc.1.2, hc.2⟩
  have hstart := startup_spec storage form
  have hinit : ConnectedComplete (startup storage form).1 := by
    intro hconn
    rw [hstart.1] at hconn
    exact absurd hconn (by decide)
  have hrun := run_invariant steps (startup storage form).1 hinit
  have hsession : apiConfigs (session storage form steps).2 =
      apiConfigs (run (startup storage form).1 steps).2 := by
    have hev : (session storage form steps).2 =
        (startup storage form).2 ++ (run (startup storage form).1 steps).2 := rfl
    rw [hev, apiConfigs_append, hstart.2, List.nil_append]
  refine ⟨fun hconn => hunfold _ (hrun.1 hconn), ?_, ?_, fun hall c hc => hunfold c ?_⟩
  · rw [hsession]
    exact runCalls_snd steps (startup storage form).1
  · intro p hp hbare
    exact hunfold p.2 (runCalls_complete steps (startup storage form).1 hinit p hp hbare)
  · rw [hsession] at hc
    exact hrun.2 hall c hc

/-- Witness of C10, amended: the sample session preceded by a bare `loadWorkflows` step.
Of its five calls the first, made by that step, is under the initial configuration with
its empty token; the other four (probe, workflow list, run list, dispatch) are made by
other steps, and each of them is under a complete configuration. -/
theorem session_calls_complete_witness :
    (sessionCalls none emptyForm mixedSteps).map Prod.snd =
        [defaultConfig, sampleConfig, sampleConfig, sampleConfig, sampleConfig] ∧
      ((sessionCalls none emptyForm mixedSteps).filter
        (fun p => !p.1.isLoadWorkflows)).length = 4 ∧
      ∀ p ∈ sessionCalls none emptyForm mixedSteps, p.1.isLoadWorkflows = false →
        p.2.githubToken ≠ "" ∧ p.2.repoOwner ≠ "" ∧ p.2.repoName ≠ "" :=
  ⟨by decide, by decide, (session_calls_complete none emptyForm mixedSteps).2.2.1⟩

/-! ## The interval timer -/

/-- A tick is `updateStatus` with its defaults: it writes the status line `Desconectado`,
clears the connection flag, makes no call and leaves the rest of the state as it was. -/
theorem tick_spec (s : State) :
    (step s Step.tick).2 = [Event.statusLine "disconnected" "Desconectado"] ∧
      apiCalls (step s Step.tick).2 = [] ∧
      (step s Step.tick).1 = { s with appState := { s.appState with connected := false } } := by
  simp [step, updateStatus, apiCalls]

/-- The failing case of C11: start-up hands `updateStatus` to the 30000 ms interval timer;
in the connected sample state, whose configuration is complete, a tick makes no call (no
probe, no history request), writes the status line `Desconectado` and leaves the panel
disconnected; start-up itself makes no call either, even on a complete stored record. -/
theorem tick_disconnects_without_probe :
    Event.setInterval Callback.updateStatus 30000 ∈
        (startup (some (stringifyConfig sampleConfig)) emptyForm).2 ∧
      apiCalls (startup (some (stringifyConfig sampleConfig)) emptyForm).2 = [] ∧
      sampleState.appState.connected = true ∧
      sampleState.config.isComplete = true ∧
      (step sampleState Step.tick).2 = [Event.statusLine "disconnected" "Desconectado"] ∧
      apiCalls (step sampleState Step.tick).2 = [] ∧
      (step sampleState Step.tick).1.appState.connected = false := by
  decide

/-! ## Where the run history lives -/

/-- Counterexample to C12 as stated: in the connected sample state, whose
`appState.backups` is empty, an ok response carries four runs of which three have a
recognised name; after `refreshHistory` the collection `appState.backups` is still empty,
and the dates read from it are only `latest`. -/
theorem refreshHistory_leaves_backups :
    sampleState.appState.connected = true ∧
      samplePayload.workflow_runs = some sampleRuns ∧
      (sampleRuns.filter isRecognizedRun).length = 3 ∧
      (refreshHistory sampleState (FetchOutcome.json 200 samplePayload)).1.appState.backups
        = [] ∧
      loadAvailableBackupDates
        (refreshHistory sampleState (FetchOutcome.json 200 samplePayload)).1 = ["latest"] := by
  decide

/-- C12, amended: in a connected state, on an ok response carrying a run list,
`refreshHistory` leaves the whole state, `appState.backups` included, as it was (so the
dates read from it do not change); what it replaces is the rendered history: whatever
was rendered before, the history list then shows exactly the filtered runs and the
summary is computed from exactly the filtered runs. -/
theorem refreshHistory_replaces_rendered (s : State) (status : Nat) (data : Payload)
    (runs : List Run) (before : List Event) (hc : s.appState.connected = true)
    (hok : 200 ≤ status ∧ status ≤ 299) (hruns : data.workflow_runs = some runs) :
    (refreshHistory s (FetchOutcome.json status data)).1 = s ∧
      (refreshHistory s (FetchOutcome.json status data)).1.appState.backups =
        s.appState.backups ∧
      loadAvailableBackupDates (refreshHistory s (FetchOutcome.json status data)).1 =
        loadAvailableBackupDates s ∧
      renderedHistory (before ++ (refreshHistory s (FetchOutcome.json status data)).2) =
        some ((runs.filter isRecognizedRun).map historyRow) ∧
      renderedLastBackup (before ++ (refreshHistory s (FetchOutcome.json status data)).2) =
        some (updateLastBackupInfo (runs.filter isRecognizedRun)) := by
  rw [refreshHistory_ok s status data runs hc hok hruns]
  refine ⟨rfl, rfl, rfl, ?_, ?_⟩
  · simp [renderedHistory, List.foldl_append]
  · simp [renderedLastBackup, List.foldl_append]

/-- Witness of C12, amended: the sample state and response, after an earlier refresh
that had rendered one row. -/
theorem refreshHistory_replaces_rendered_witness :
    (refreshHistory sampleState (FetchOutcome.json 200 samplePayload)).1 = sampleState ∧
      (refreshHistory sampleState (FetchOutcome.json 200 samplePayload)).1.appState.backups =
        sampleState.appState.backups ∧
      loadAvailableBackupDates
          (refreshHistory sampleState (FetchOutcome.json 200 samplePayload)).1 =
        loadAvailableBackupDates sampleState ∧
      renderedHistory (staleEvents ++
          (refreshHistory sampleState (FetchOutcome.json 200 samplePayload)).2) =
        some ((sampleRuns.filter isRecognizedRun).map historyRow) ∧
      renderedLastBackup (staleEvents ++
          (refreshHistory sampleState (FetchOutcome.json 200 samplePayload)).2) =
        some (updateLastBackupInfo (sampleRuns.filter isRecognizedRun)) :=
  refreshHistory_replaces_rendered sampleState 200 samplePayload sampleRuns staleEvents
    (by decide) (by decide) rfl

end BackupPanel
